import Mathlib

/-
Verification of the guessing-game kernel of DC-Code123/GuessingGame.

The embedding translates src/src/utils.rs (gen_rand, end_situation_handler,
game_loop and the inline guess evaluation) and src/src/main.rs (the session
loop, get_retry_choice, exit_game).  Rust f64 values are modelled by the
inductive F64 below: NaN, the two infinities, and finite decimal values
m * 10^e with integer mantissa and exponent.  Every float manipulated by the
program is either produced by parsing a decimal literal (exactly such a
value; the binary rounding of f64 is not modelled, which is exact on all
inputs considered here) or drawn by the random generator, which is modelled
through an entropy parameter.  Input lines arrive as explicit string
arguments, mirroring the lines read from stdin.
-/

namespace GuessGame

/-- Model of a Rust f64 value as it occurs in this program: NaN, the two
infinities, or a finite decimal value with mantissa m and decimal exponent e
denoting m * 10^e. -/
inductive F64 where
  | nan : F64
  | neginf : F64
  | fin : Int → Int → F64
  | inf : F64
deriving DecidableEq

/-- The rational value denoted by the finite f64 with mantissa m and decimal
exponent e. -/
def decVal (m e : Int) : ℚ := (m : ℚ) * 10 ^ e

/-- Mantissa of m * 10^e rescaled to the common exponent min e f:
align m e f = m * 10^(e - min e f), an integer since e - min e f >= 0. -/
def align (m e f : Int) : Int := m * 10 ^ (e - min e f).toNat

/-- Model of f64 partial_cmp (PartialOrd on f64): no ordering when either side
is NaN, otherwise the standard order with the infinities at the ends and
finite values compared by value (via mantissas aligned to a common decimal
exponent). -/
def cmpF64 : F64 → F64 → Option Ordering
  | F64.nan, _ => none
  | _, F64.nan => none
  | F64.neginf, F64.neginf => some Ordering.eq
  | F64.neginf, _ => some Ordering.lt
  | F64.inf, F64.inf => some Ordering.eq
  | _, F64.inf => some Ordering.lt
  | F64.inf, _ => some Ordering.gt
  | F64.fin _ _, F64.neginf => some Ordering.gt
  | F64.fin m1 e1, F64.fin m2 e2 =>
    some (if align m1 e1 e2 < align m2 e2 e1 then Ordering.lt
          else if align m2 e2 e1 < align m1 e1 e2 then Ordering.gt
          else Ordering.eq)

/-- Model of f64 <= (PartialOrd::le), as used by RangeInclusive::contains in
game_loop: true exactly when partial_cmp yields Less or Equal, so any
comparison against NaN is false. -/
def f64Le (x y : F64) : Bool :=
  match cmpF64 x y with
  | some Ordering.lt => true
  | some Ordering.eq => true
  | _ => false

/-- Whitespace as trimmed by str::trim for the inputs this program sees. -/
def isWsCh (c : Char) : Bool := c = ' ' ∨ c = '\t' ∨ c = '\n' ∨ c = '\r'

/-- Drop leading whitespace characters. -/
def dropWs : List Char → List Char
  | [] => []
  | c :: cs => if isWsCh c then dropWs cs else c :: cs

/-- Model of str::trim: strip whitespace from both ends. -/
def trimChars (cs : List Char) : List Char :=
  ((dropWs cs).reverse |> dropWs).reverse

/-- Strip an optional leading sign, returning whether it was '-'. -/
def splitSign : List Char → Bool × List Char
  | '-' :: cs => (true, cs)
  | '+' :: cs => (false, cs)
  | cs => (false, cs)

/-- Split a character list into its maximal run of leading ASCII digits and
the remainder. -/
def readDigits : List Char → List Char × List Char
  | [] => ([], [])
  | c :: cs =>
    if c.isDigit then
      let p := readDigits cs
      (c :: p.1, p.2)
    else ([], c :: cs)

/-- Decimal digits to a natural number, most significant first. -/
def digitsToNat : List Char → Nat → Nat
  | [], acc => acc
  | c :: cs, acc => digitsToNat cs (acc * 10 + (c.toNat - '0'.toNat))

/-- Case-insensitive comparison of a character list against a lowercase
pattern. -/
def lowerEq (cs pat : List Char) : Bool := cs.map Char.toLower = pat

/-- The optional exponent suffix of a float literal: empty means exponent 0;
otherwise 'e' or 'E', an optional sign and at least one digit, consuming the
whole remainder. Models the exponent part of f64's FromStr grammar. -/
def parseExpTail : List Char → Option Int
  | [] => some 0
  | c :: cs =>
    if c = 'e' ∨ c = 'E' then
      let p := splitSign cs
      if p.2 = [] then none
      else if p.2.all Char.isDigit then
        some (if p.1 then -(digitsToNat p.2 0 : Int) else (digitsToNat p.2 0 : Int))
      else none
    else none

/-- The unsigned decimal part of f64's FromStr grammar: digits with an
optional point and an optional exponent, requiring at least one mantissa
digit and consuming the whole input.  Returns the mantissa and the decimal
exponent (exponent part minus the number of fractional digits). -/
def parseDec (cs : List Char) : Option (Int × Int) :=
  let ip := readDigits cs
  match ip.2 with
  | '.' :: rest2 =>
    let fp := readDigits rest2
    if ip.1 = [] ∧ fp.1 = [] then none
    else
      match parseExpTail fp.2 with
      | some ex => some ((digitsToNat (ip.1 ++ fp.1) 0 : Int), ex - fp.1.length)
      | none => none
  | _ =>
    if ip.1 = [] then none
    else
      match parseExpTail ip.2 with
      | some ex => some ((digitsToNat ip.1 0 : Int), ex)
      | none => none

/-- Model of str::parse::<f64> (f64's FromStr): an optional sign followed by
"inf", "infinity" or "nan" (case-insensitive) or a decimal number with
optional fraction and exponent.  The input is not trimmed here; the program
trims before parsing. -/
def parseF64 (cs : List Char) : Option F64 :=
  let p := splitSign cs
  if lowerEq p.2 ['i', 'n', 'f'] ∨ lowerEq p.2 ['i', 'n', 'f', 'i', 'n', 'i', 't', 'y'] then
    some (if p.1 then F64.neginf else F64.inf)
  else if lowerEq p.2 ['n', 'a', 'n'] then
    some F64.nan
  else
    (parseDec p.2).map fun q => F64.fin (if p.1 then -q.1 else q.1) q.2

/-- Model of str::parse::<i32>: an optional sign followed by at least one
digit, consuming the whole input, with the value required to fit in i32. -/
def parseI32Chars (cs : List Char) : Option Int :=
  let p := splitSign cs
  if p.2 = [] then none
  else if p.2.all Char.isDigit then
    let v : Int := if p.1 then -(digitsToNat p.2 0 : Int) else (digitsToNat p.2 0 : Int)
    if -(2:Int) ^ 31 ≤ v ∧ v ≤ 2 ^ 31 - 1 then some v else none
  else none

/-- utils.rs gen_rand: rand::rng().random_range(1.0..=100.0).  The rand crate
is external, so random_range is modelled by its contract (a sample of the
inclusive interval): an entropy parameter u from the unit interval is mapped
affinely onto [1, 100].  Note the Rust definition takes no arguments, even
though main.rs invokes it as gen_rand(range_start, range_end); the range the
generator draws from is fixed at 1.0..=100.0. -/
def gen_rand (u : ℚ) : ℚ := 1 + 99 * u

/-- The guess outcome of one comparison: too low, too high, or correct. -/
inductive GuessOutcome where
  | TooLow : GuessOutcome
  | TooHigh : GuessOutcome
  | Correct : GuessOutcome
deriving DecidableEq

/-- The comparison performed in game_loop (utils.rs):
guess.partial_cmp(&secret) with Less printed as "Too small!", Greater as
"Too big!" and Equal as correct; none models the unwrap panic on NaN. -/
def evaluate (guess target : F64) : Option GuessOutcome :=
  match cmpF64 guess target with
  | none => none
  | some Ordering.lt => some GuessOutcome.TooLow
  | some Ordering.gt => some GuessOutcome.TooHigh
  | some Ordering.eq => some GuessOutcome.Correct

/-- The guess validation inlined in game_loop (utils.rs lines 482-488):
trim the raw line, parse it as f64, and accept exactly when
(1.0..=100.0).contains(&num); every failure takes the single catch-all arm
printing "Invalid input. Please enter 1-100". The session's adjusted range is
not consulted. -/
def gameValidate (line : String) : Option F64 :=
  match parseF64 (trimChars line.data) with
  | some num => if f64Le (F64.fin 1 0) num && f64Le num (F64.fin 100 0) then some num else none
  | none => none

/-- Result of one run of game_loop over a finite script of input lines:
out won attempts models the (bool, i32) return value, panicked models the
partial_cmp unwrap panic, exhausted means the script ran out while the loop
was still awaiting input. -/
inductive LoopResult where
  | out : Bool → Int → LoopResult
  | panicked : LoopResult
  | exhausted : LoopResult
deriving DecidableEq

/-- utils.rs game_loop(secret, attempts): each iteration first increments
attempts, reads a line, validates it (continuing the loop on failure), and
otherwise returns on this first scored guess: (false, attempts) on Less or
Greater, (true, attempts) on Equal. -/
def game_loop (secret : F64) : Int → List String → LoopResult
  | _, [] => LoopResult.exhausted
  | attempts, line :: rest =>
    match gameValidate line with
    | none => game_loop secret (attempts + 1) rest
    | some guess =>
      match evaluate guess secret with
      | none => LoopResult.panicked
      | some GuessOutcome.TooLow => LoopResult.out false (attempts + 1)
      | some GuessOutcome.TooHigh => LoopResult.out false (attempts + 1)
      | some GuessOutcome.Correct => LoopResult.out true (attempts + 1)

/-- utils.rs end_situation_handler: after the win/lose message it reads a
line and returns choice.trim().parse().unwrap_or(0). -/
def end_situation_handler (choice : String) : Int :=
  (parseI32Chars (trimChars choice.data)).getD 0

/-- main.rs get_retry_choice: reads a line and returns
choice.trim().parse().unwrap_or(0), defaulting to 0 (quit) on invalid
input. -/
def get_retry_choice (choice : String) : Int :=
  (parseI32Chars (trimChars choice.data)).getD 0

/-- Modelled from the spec: game_range_adjuster is imported by main.rs but
absent from the sources; per the spec the session "requests a new Range from
the external collaborator", so it is modelled as returning the pair of
bounds supplied by that collaborator. -/
def game_range_adjuster (newLo newHi : F64) : F64 × F64 := (newLo, newHi)

/-- The mutable state of main's session loop: the current guessing range,
the current secret number, and the running attempt count. -/
structure SessionState where
  rangeStart : F64
  rangeEnd : F64
  secret : F64
  attempts : Int
deriving DecidableEq

/-- What main does after a round: continue the 'retry loop with the given
state, continue the outer 'game loop (which regenerates range, secret and
attempts at its top), or terminate the process with an exit code. -/
inductive SessionAction where
  | nextRetry : SessionState → SessionAction
  | nextGame : SessionAction
  | exitCode : Int → SessionAction
deriving DecidableEq

/-- main.rs lines 53-92, the post-round dispatch: on end_situation_handler
returning 1 it branches on get_retry_choice — 1 continues 'retry with the
state unchanged (the "Attempts reset." message notwithstanding, attempts is
not assigned); 2 continues 'game; 3 installs the adjusted range, resets
attempts to 0 and generates a fresh secret into a local binding
`let secret_number = ...` that shadows the outer variable and is dropped at
the end of the arm, so the outer secret is unchanged; 0 calls exit_game
(exit code 0); any other value continues 'game.  On end_situation_handler
returning 0 it calls exit_game; on any other value it prints "Unexpected
error" and calls exit(1). -/
def sessionStep (st : SessionState) (playAgain retryChoice : String)
    (newLo newHi : F64) (u : ℚ) : SessionAction :=
  if end_situation_handler playAgain = 1 then
    if get_retry_choice retryChoice = 1 then
      SessionAction.nextRetry st
    else if get_retry_choice retryChoice = 2 then
      SessionAction.nextGame
    else if get_retry_choice retryChoice = 3 then
      let p := game_range_adjuster newLo newHi
      let _shadowedSecret : ℚ := gen_rand u
      SessionAction.nextRetry
        { rangeStart := p.1, rangeEnd := p.2, secret := st.secret, attempts := 0 }
    else if get_retry_choice retryChoice = 0 then
      SessionAction.exitCode 0
    else
      SessionAction.nextGame
  else if end_situation_handler playAgain = 0 then
    SessionAction.exitCode 0
  else
    SessionAction.exitCode 1

/-- The three validation failure kinds named by the spec. -/
inductive ValidationError where
  | Empty : ValidationError
  | NotANumber : ValidationError
  | OutOfRange : ValidationError
deriving DecidableEq

/-- Modelled from the spec: GuessValidator.parse_and_validate(raw, range) —
Empty when the input is empty or whitespace-only, NotANumber when it cannot
be parsed as a float, OutOfRange when the parsed value lies strictly outside
[range.low, range.high], and otherwise the parsed value unchanged.  The code
under src/ has no such function; game_loop's inline check is compared
against this model. -/
def parse_and_validate (raw : String) (lo hi : F64) : Except ValidationError F64 :=
  if trimChars raw.data = [] then Except.error ValidationError.Empty
  else
    match parseF64 (trimChars raw.data) with
    | none => Except.error ValidationError.NotANumber
    | some v =>
      if f64Le lo v && f64Le v hi then Except.ok v
      else Except.error ValidationError.OutOfRange

end GuessGame

namespace GuessGame

theorem decVal_int (m : Int) : decVal m 0 = (m : ℚ) := by
  rw [decVal, zpow_zero, mul_one]

theorem align_cast (m e f : Int) :
    ((align m e f : Int) : ℚ) = decVal m e * 10 ^ (-(min e f)) := by
  have hmin : (0:Int) ≤ e - min e f := sub_nonneg.mpr (min_le_left e f)
  rw [align, decVal]
  push_cast
  rw [← zpow_natCast (10:ℚ) (e - min e f).toNat, Int.toNat_of_nonneg hmin,
    sub_eq_add_neg, zpow_add₀ (by norm_num : (10:ℚ) ≠ 0), mul_assoc]

theorem align_lt_align (m1 e1 m2 e2 : Int) :
    align m1 e1 e2 < align m2 e2 e1 ↔ decVal m1 e1 < decVal m2 e2 := by
  rw [← Int.cast_lt (R := ℚ), align_cast, align_cast, min_comm e2 e1,
    mul_lt_mul_right (zpow_pos (by norm_num : (0:ℚ) < 10) _)]

theorem cmpF64_fin (m1 e1 m2 e2 : Int) :
    cmpF64 (F64.fin m1 e1) (F64.fin m2 e2) =
      some (if decVal m1 e1 < decVal m2 e2 then Ordering.lt
            else if decVal m2 e2 < decVal m1 e1 then Ordering.gt
            else Ordering.eq) := by
  show some _ = some _
  congr 1
  rcases lt_trichotomy (decVal m1 e1) (decVal m2 e2) with h | h | h
  · rw [if_pos ((align_lt_align m1 e1 m2 e2).mpr h), if_pos h]
  · rw [if_neg ((align_lt_align m1 e1 m2 e2).not.mpr (not_lt.mpr h.ge)),
      if_neg ((align_lt_align m2 e2 m1 e1).not.mpr (not_lt.mpr h.le)),
      if_neg (not_lt.mpr h.ge), if_neg (not_lt.mpr h.le)]
  · rw [if_neg ((align_lt_align m1 e1 m2 e2).not.mpr (not_lt.mpr h.le)),
      if_pos ((align_lt_align m2 e2 m1 e1).mpr h),
      if_neg (not_lt.mpr h.le), if_pos h]

theorem f64Le_fin (m1 e1 m2 e2 : Int) :
    f64Le (F64.fin m1 e1) (F64.fin m2 e2) = true ↔ decVal m1 e1 ≤ decVal m2 e2 := by
  rw [f64Le, cmpF64_fin]
  rcases lt_trichotomy (decVal m1 e1) (decVal m2 e2) with h | h | h
  · rw [if_pos h]; simp [h.le]
  · rw [if_neg (not_lt.mpr h.ge), if_neg (not_lt.mpr h.le)]; simp [h.le]
  · rw [if_neg (not_lt.mpr h.le), if_pos h]; simp [not_le.mpr h]

theorem gameValidate_shape (line : String) (g : F64)
    (h : gameValidate line = some g) :
    ∃ m e, g = F64.fin m e ∧ 1 ≤ decVal m e ∧ decVal m e ≤ 100 := by
  unfold gameValidate at h
  split at h
  next num heq =>
    split at h
    next hb =>
      obtain rfl : num = g := by injection h
      obtain ⟨h1, h2⟩ := Bool.and_eq_true_iff.mp hb
      cases num with
      | nan => exact absurd h1 (by decide)
      | neginf => exact absurd h1 (by decide)
      | inf => exact absurd h2 (by decide)
      | fin m e =>
        have b1 := (f64Le_fin 1 0 m e).mp h1
        have b2 := (f64Le_fin m e 100 0).mp h2
        rw [decVal_int] at b1
        rw [decVal_int] at b2
        exact ⟨m, e, rfl, by exact_mod_cast b1, by exact_mod_cast b2⟩
    next hb => exact absurd h (by simp)
  next heq => exact absurd h (by simp)

end GuessGame

namespace GuessGame

/-- C1 counterexample: on target 7.0 and the single scripted line "3" (a
valid, in-range guess with 3 < 7) the round loop does not transition back to
awaiting a guess: it returns (false, 1) although no guess equalled the
target. -/
theorem C1_counterexample :
    game_loop (F64.fin 7 0) 0 ["3"] = LoopResult.out false 1 ∧
    decVal 3 0 ≠ decVal 7 0 := by
  refine ⟨by decide, ?_⟩
  rw [decVal_int, decVal_int]
  norm_num

/-- C1 (amended): the round loop loops back to awaiting a guess only on
invalid input, incrementing the attempt count; on the first scored (valid)
guess it returns at once, with success flag true exactly when that guess
equals the target, and the returned attempt count is the running count plus
one for this scored guess. -/
theorem C1_round_returns_on_first_scored_guess (ms es a : Int) (line : String)
    (rest : List String) :
    (gameValidate line = none →
      game_loop (F64.fin ms es) a (line :: rest) =
        game_loop (F64.fin ms es) (a + 1) rest)
    ∧ (∀ mg eg, gameValidate line = some (F64.fin mg eg) →
        (decVal mg eg ≠ decVal ms es →
          game_loop (F64.fin ms es) a (line :: rest) = LoopResult.out false (a + 1))
        ∧ (decVal mg eg = decVal ms es →
          game_loop (F64.fin ms es) a (line :: rest) = LoopResult.out true (a + 1))) := by
  constructor
  · intro h
    simp [game_loop, h]
  · intro mg eg h
    constructor
    · intro hne
      rcases lt_or_gt_of_ne hne with hlt | hgt
      · simp [game_loop, h, evaluate, cmpF64_fin, hlt]
      · simp [game_loop, h, evaluate, cmpF64_fin, not_lt.mpr hgt.le, hgt]
    · intro heq
      simp [game_loop, h, evaluate, cmpF64_fin, heq]

/-- C1 witness: instantiating the amended round-loop theorem at target 7.0
and the valid non-winning guess "3". -/
theorem C1_round_returns_witness :
    game_loop (F64.fin 7 0) 0 ["3", "9"] = LoopResult.out false 1 :=
  ((C1_round_returns_on_first_scored_guess 7 0 0 "3" ["9"]).2 3 0 (by decide)).1
    (by rw [decVal_int, decVal_int]; norm_num)

/-- C2 counterexample: the scripted sequence "", "abc", "7" against target
7.0 ends with attempts = 3, not 1: the two validation failures are counted,
because game_loop increments the attempt counter before validating. -/
theorem C2_counterexample :
    game_loop (F64.fin 7 0) 0 ["", "abc", "7"] = LoopResult.out true 3 ∧
    (3 : Int) ≠ 1 := by decide

/-- C2 (amended): an empty, non-numeric or out-of-range line self-loops back
to awaiting a guess without being scored, but the attempt count increments on
every line read, invalid ones included; the scripted sequence "", "abc", "7"
against target 7.0 therefore ends with attempts = 3. -/
theorem C2_invalid_lines_counted :
    (∀ (secret : F64) (a : Int) (line : String) (rest : List String),
      gameValidate line = none →
        game_loop secret a (line :: rest) = game_loop secret (a + 1) rest)
    ∧ game_loop (F64.fin 7 0) 0 ["", "abc", "7"] = LoopResult.out true 3 := by
  constructor
  · intro secret a line rest h
    simp [game_loop, h]
  · decide

/-- C2 witness: instantiating the amended theorem on the invalid line "abc":
the loop self-loops with the counter incremented. -/
theorem C2_invalid_lines_counted_witness :
    game_loop (F64.fin 7 0) 0 ["abc", "7"] = game_loop (F64.fin 7 0) 1 ["7"] :=
  C2_invalid_lines_counted.1 (F64.fin 7 0) 0 "abc" ["7"] (by decide)

/-- C3: choosing "play again" (1) and then "same number" (1) after a round
that ended with attempts = 3 re-enters the retry loop with the very same
state: the target is indeed unchanged (42.0), but the attempt count stays 3
instead of being reset to 0, although main.rs prints "Attempts reset."
in this arm. -/
theorem C3_retry_keeps_attempt_count :
    sessionStep ⟨F64.fin 1 0, F64.fin 100 0, F64.fin 42 0, 3⟩ "1" "1"
        (F64.fin 1 0) (F64.fin 100 0) 0 =
      SessionAction.nextRetry ⟨F64.fin 1 0, F64.fin 100 0, F64.fin 42 0, 3⟩ ∧
    (3 : Int) ≠ 0 := by decide

/-- C4: choosing "new range" (3) with collaborator-supplied range
[200.0, 300.0] resets the attempt count and installs the new range, but the
next round is still played against the old target 42.0: the freshly
generated secret in main.rs line 71 is bound by a shadowing let that is
dropped at the end of the match arm, and 42 does not even lie in the new
range. -/
theorem C4_new_range_keeps_old_target :
    sessionStep ⟨F64.fin 1 0, F64.fin 100 0, F64.fin 42 0, 5⟩ "1" "3"
        (F64.fin 200 0) (F64.fin 300 0) 0 =
      SessionAction.nextRetry ⟨F64.fin 200 0, F64.fin 300 0, F64.fin 42 0, 0⟩ ∧
    ¬ decVal 200 0 ≤ decVal 42 0 := by
  refine ⟨by decide, ?_⟩
  rw [decVal_int, decVal_int]
  norm_num

/-- C5 counterexample: with the session's current range set to [200.0, 300.0]
(reachable through the range adjuster), the guess "250" lies inside the
current range — the spec-modelled validator accepts it — yet the round's
validation rejects it, because game_loop checks the fixed interval
(1.0..=100.0) and ignores the current range. -/
theorem C5_counterexample :
    gameValidate "250" = none ∧
    parse_and_validate "250" (F64.fin 200 0) (F64.fin 300 0) =
      Except.ok (F64.fin 250 0) ∧
    decVal 200 0 ≤ decVal 250 0 ∧ decVal 250 0 ≤ decVal 300 0 := by
  refine ⟨by decide, rfl, ?_, ?_⟩ <;> rw [decVal_int, decVal_int] <;> norm_num

/-- C5 (amended): the round's guess validation ignores the session's current
range and has no distinct error kinds: it trims the input, parses it as a
float, and succeeds exactly when the spec's parse_and_validate succeeds
against the fixed default range [1.0, 100.0], returning the parsed value
unchanged; every failure (empty, non-numeric, or outside the fixed range) is
rejected identically. -/
theorem C5_validation_is_fixed_default_range (s : String) (v : F64) :
    gameValidate s = some v ↔
      parse_and_validate s (F64.fin 1 0) (F64.fin 100 0) = Except.ok v := by
  rw [gameValidate, parse_and_validate]
  by_cases ht : trimChars s.data = []
  · have hp : parseF64 (trimChars s.data) = none := by rw [ht]; rfl
    rw [if_pos ht, hp]
    simp
  · rw [if_neg ht]
    cases hp : parseF64 (trimChars s.data) with
    | none => simp
    | some num =>
      show (if (f64Le (F64.fin 1 0) num && f64Le num (F64.fin 100 0)) = true
            then some num else none) = some v ↔
          (if (f64Le (F64.fin 1 0) num && f64Le num (F64.fin 100 0)) = true
            then Except.ok num else Except.error ValidationError.OutOfRange) =
            Except.ok v
      by_cases hb : (f64Le (F64.fin 1 0) num && f64Le num (F64.fin 100 0)) = true
      · rw [if_pos hb, if_pos hb]
        constructor
        · intro hsome
          obtain rfl : num = v := Option.some_inj.mp hsome
          rfl
        · intro hok
          obtain rfl : num = v := by injection hok
          rfl
      · rw [if_neg hb, if_neg hb]
        simp

/-- C5 witness: instantiating the amended equivalence at the in-range guess
"50". -/
theorem C5_validation_witness :
    gameValidate "50" = some (F64.fin 50 0) :=
  (C5_validation_is_fixed_default_range "50" (F64.fin 50 0)).mpr rfl

/-- C6: the evaluation of a finite guess g against a finite target t is the
single partial_cmp comparison with no tolerance: TooLow when g < t, TooHigh
when g > t, and Correct when g = t exactly. -/
theorem C6_evaluator_is_plain_ordering (mg eg mt et : Int) :
    (decVal mg eg < decVal mt et →
      evaluate (F64.fin mg eg) (F64.fin mt et) = some GuessOutcome.TooLow)
    ∧ (decVal mt et < decVal mg eg →
      evaluate (F64.fin mg eg) (F64.fin mt et) = some GuessOutcome.TooHigh)
    ∧ (decVal mg eg = decVal mt et →
      evaluate (F64.fin mg eg) (F64.fin mt et) = some GuessOutcome.Correct) := by
  refine ⟨fun h => ?_, fun h => ?_, fun h => ?_⟩ <;>
    simp [evaluate, cmpF64_fin]
  · simp [h]
  · simp [not_lt.mpr h.le, h]
  · simp [h]

/-- C6 witness: the three outcomes at concrete guesses 3, 9 and 7 against
target 7. -/
theorem C6_evaluator_witness :
    evaluate (F64.fin 3 0) (F64.fin 7 0) = some GuessOutcome.TooLow
    ∧ evaluate (F64.fin 9 0) (F64.fin 7 0) = some GuessOutcome.TooHigh
    ∧ evaluate (F64.fin 7 0) (F64.fin 7 0) = some GuessOutcome.Correct :=
  ⟨(C6_evaluator_is_plain_ordering 3 0 7 0).1 (by rw [decVal_int, decVal_int]; norm_num),
   (C6_evaluator_is_plain_ordering 9 0 7 0).2.1 (by rw [decVal_int, decVal_int]; norm_num),
   (C6_evaluator_is_plain_ordering 7 0 7 0).2.2 rfl⟩

/-- C7 counterexample: the post-round continuation input "7" parses as an
integer but is not a recognised choice; the session does not treat it as
Quit — it starts a new game instead of terminating. -/
theorem C7_counterexample :
    sessionStep ⟨F64.fin 1 0, F64.fin 100 0, F64.fin 42 0, 1⟩ "1" "7"
        (F64.fin 1 0) (F64.fin 100 0) 0 = SessionAction.nextGame ∧
    SessionAction.nextGame ≠ SessionAction.exitCode 0 := by decide

/-- C7 (amended): continuation input that fails to parse as an integer
defaults to 0 and quits with exit code 0, at both the play-again and the
retry prompt; but input parsing to an unrecognised integer is not treated as
Quit: at the retry prompt (for example "7") it starts a new game, and at the
play-again prompt (for example "5") the session exits with code 1. -/
theorem C7_unparseable_defaults_to_quit (st : SessionState) (s : String)
    (lo hi : F64) (u : ℚ) (h : parseI32Chars (trimChars s.data) = none) :
    (sessionStep st "1" s lo hi u = SessionAction.exitCode 0
      ∧ sessionStep st s "0" lo hi u = SessionAction.exitCode 0)
    ∧ sessionStep st "1" "7" lo hi u = SessionAction.nextGame
    ∧ sessionStep st "5" "0" lo hi u = SessionAction.exitCode 1 := by
  have hs0 : get_retry_choice s = 0 := by rw [get_retry_choice, h]; rfl
  have he0 : end_situation_handler s = 0 := by rw [end_situation_handler, h]; rfl
  have he1 : end_situation_handler "1" = 1 := by decide
  have he5 : end_situation_handler "5" = 5 := by decide
  have hr7 : get_retry_choice "7" = 7 := by decide
  have hr0 : get_retry_choice "0" = 0 := by decide
  refine ⟨⟨?_, ?_⟩, ?_, ?_⟩ <;>
    simp [sessionStep, hs0, he0, he1, he5, hr7, hr0]

/-- C7 witness: instantiating the amended theorem at the unparseable
continuation input "abc". -/
theorem C7_unparseable_witness :
    sessionStep ⟨F64.fin 1 0, F64.fin 100 0, F64.fin 42 0, 1⟩ "1" "abc"
        (F64.fin 1 0) (F64.fin 100 0) 0 = SessionAction.exitCode 0 :=
  ((C7_unparseable_defaults_to_quit ⟨F64.fin 1 0, F64.fin 100 0, F64.fin 42 0, 1⟩
    "abc" (F64.fin 1 0) (F64.fin 100 0) 0 (by decide)).1).1

/-- C8: answering "5" to the ordinary play-again prompt drives the session
into the "Unexpected error" arm, which calls exit(1): a non-zero exit code
is reachable from ordinary player input, not only from unrecoverable
internal errors. -/
theorem C8_exit_one_on_ordinary_input :
    sessionStep ⟨F64.fin 1 0, F64.fin 100 0, F64.fin 42 0, 2⟩ "5" "1"
        (F64.fin 1 0) (F64.fin 100 0) 0 = SessionAction.exitCode 1 ∧
    (1 : Int) ≠ 0 := by decide

/-- C9: the target generator takes no range argument and always samples the
fixed interval [1.0, 100.0]: for every entropy sample of the unit interval
the generated value v satisfies 1 <= v <= 100, and in particular it never
lies in a requested range such as [200.0, 300.0]. -/
theorem C9_gen_rand_fixed_interval (u : ℚ) (h0 : 0 ≤ u) (h1 : u ≤ 1) :
    1 ≤ gen_rand u ∧ gen_rand u ≤ 100 ∧
    ¬ (decVal 200 0 ≤ gen_rand u ∧ gen_rand u ≤ decVal 300 0) := by
  rw [gen_rand, decVal_int, decVal_int]
  refine ⟨by linarith, by linarith, ?_⟩
  rintro ⟨hc, -⟩
  have : ((200 : Int) : ℚ) = 200 := by norm_num
  rw [this] at hc
  linarith

/-- C9 witness: instantiating the generator bound at the entropy sample 0. -/
theorem C9_gen_rand_witness :
    1 ≤ gen_rand 0 ∧ gen_rand 0 ≤ 100 ∧
    ¬ (decVal 200 0 ≤ gen_rand 0 ∧ gen_rand 0 ≤ decVal 300 0) :=
  C9_gen_rand_fixed_interval 0 le_rfl zero_le_one

/-- C10: for every non-NaN secret, game_loop never reaches the partial_cmp
unwrap panic: every guess that gets compared has passed validation into
[1.0, 100.0], hence is a finite value, and comparing a finite value with a
non-NaN secret always yields an ordering. -/
theorem C10_unwrap_never_panics (secret : F64) (a : Int) (lines : List String)
    (h : secret ≠ F64.nan) :
    game_loop secret a lines ≠ LoopResult.panicked := by
  induction lines generalizing a with
  | nil => simp [game_loop]
  | cons line rest ih =>
    simp only [game_loop]
    cases hv : gameValidate line with
    | none => exact ih (a + 1)
    | some g =>
      obtain ⟨m, e, rfl, -, -⟩ := gameValidate_shape line g hv
      cases secret with
      | nan => exact absurd rfl h
      | neginf => simp [evaluate, cmpF64]
      | inf => simp [evaluate, cmpF64]
      | fin ms es =>
        simp only [evaluate, cmpF64_fin]
        split_ifs <;> simp

/-- C10 witness: the panic-freedom theorem at the finite secret 7.0 and the
script ["7"]. -/
theorem C10_unwrap_witness :
    game_loop (F64.fin 7 0) 0 ["7"] ≠ LoopResult.panicked :=
  C10_unwrap_never_panics (F64.fin 7 0) 0 ["7"] (by decide)

end GuessGame
